import Mathlib

/-!
Verification of the horse-racing weather collector.

Shallow embedding of the three source files:
* `weather.py` — the feature-derivation algorithm `get_comprehensive_weather`
  (rainfall accumulations, hours-since-rain, going classification, trend flags);
* `collect_daily_weather.py` — the periodic-snapshot store
  (`venue_daily_weather` table with `UNIQUE(venue, collection_date, collection_hour)`
  written via `INSERT OR REPLACE`) and its collection loop;
* `weather_collector.py` — the race-linked store (`weather_updates` table,
  plain `INSERT`, non-unique index on `(market_id, collection_timestamp)`)
  and its collection loop.

Python floats are modelled as exact rationals `ℚ`; hourly arrays as `List ℚ`
indexed by `ℕ`, with `List.getD _ _ 0` for subscripting (every theorem that
needs in-range indices carries that hypothesis explicitly).  SQLite tables are
modelled as lists of rows appended in rowid order.
-/

set_option maxHeartbeats 1000000

/-! ## `weather.py`: venue catalog -/

/-- One entry of the `VENUE_COORDS` dict in `weather.py`. -/
structure VenueInfo where
  lat : ℚ
  lon : ℚ
  country : String
  tz : String
  deriving DecidableEq

/-- The `VENUE_COORDS` catalog of `weather.py` (dict modelled as an association
list in source order). -/
def VENUE_COORDS : List (String × VenueInfo) := [
  ("Newbury", ⟨51.4008, -1.3267, "UK", "Europe/London"⟩),
  ("Cheltenham", ⟨51.9117, -2.0493, "UK", "Europe/London"⟩),
  ("Ascot", ⟨51.4088, -0.6764, "UK", "Europe/London"⟩),
  ("Kempton Park", ⟨51.4175, -0.3867, "UK", "Europe/London"⟩),
  ("Lingfield", ⟨51.1817, -0.0100, "UK", "Europe/London"⟩),
  ("Worcester", ⟨52.1886, -2.2274, "UK", "Europe/London"⟩),
  ("Aintree", ⟨53.4775, -2.9497, "UK", "Europe/London"⟩),
  ("York", ⟨53.9536, -1.0353, "UK", "Europe/London"⟩),
  ("Sandown", ⟨51.3867, -0.3644, "UK", "Europe/London"⟩),
  ("Haydock", ⟨53.4750, -2.6503, "UK", "Europe/London"⟩),
  ("Doncaster", ⟨53.5229, -1.0958, "UK", "Europe/London"⟩),
  ("Newmarket", ⟨52.2438, 0.3611, "UK", "Europe/London"⟩),
  ("Goodwood", ⟨50.8692, -0.7464, "UK", "Europe/London"⟩),
  ("Epsom", ⟨51.3178, -0.2617, "UK", "Europe/London"⟩),
  ("Ayr", ⟨55.4583, -4.6333, "UK", "Europe/London"⟩),
  ("Newcastle", ⟨54.9783, -1.6178, "UK", "Europe/London"⟩),
  ("Chepstow", ⟨51.6431, -2.6764, "UK", "Europe/London"⟩),
  ("Fontwell", ⟨50.8667, -0.6167, "UK", "Europe/London"⟩),
  ("Ludlow", ⟨52.3667, -2.7333, "UK", "Europe/London"⟩),
  ("Market Rasen", ⟨53.4333, -0.3333, "UK", "Europe/London"⟩),
  ("Sedgefield", ⟨54.6667, -1.4667, "UK", "Europe/London"⟩),
  ("Southwell", ⟨53.0833, -0.9500, "UK", "Europe/London"⟩),
  ("Uttoxeter", ⟨52.9000, -1.8667, "UK", "Europe/London"⟩),
  ("Wetherby", ⟨53.9333, -1.3833, "UK", "Europe/London"⟩),
  ("Wolverhampton", ⟨52.5833, -2.1333, "UK", "Europe/London"⟩),
  ("Bangor-on-Dee", ⟨52.9910, -2.9235, "UK", "Europe/London"⟩),
  ("Bath", ⟨51.4183, -2.4094, "UK", "Europe/London"⟩),
  ("Brighton", ⟨50.8248, -0.1072, "UK", "Europe/London"⟩),
  ("Chester", ⟨53.1852, -2.8932, "UK", "Europe/London"⟩),
  ("Ffos Las", ⟨51.7311, -4.2400, "UK", "Europe/London"⟩),
  ("Hexham", ⟨54.9522, -2.1245, "UK", "Europe/London"⟩),
  ("Newton Abbot", ⟨50.5365, -3.5920, "UK", "Europe/London"⟩),
  ("Plumpton", ⟨50.9216, -0.0570, "UK", "Europe/London"⟩),
  ("Ripon", ⟨54.1207, -1.4923, "UK", "Europe/London"⟩),
  ("Yarmouth", ⟨52.6263, 1.7338, "UK", "Europe/London"⟩),
  ("Churchill Downs", ⟨38.2048, -85.7702, "USA", "America/New_York"⟩),
  ("Keeneland", ⟨38.0403, -84.5909, "USA", "America/New_York"⟩),
  ("Santa Anita", ⟨34.1395, -118.0377, "USA", "America/Los_Angeles"⟩),
  ("Del Mar", ⟨32.9789, -117.2651, "USA", "America/Los_Angeles"⟩),
  ("Gulfstream Park", ⟨25.9898, -80.1373, "USA", "America/New_York"⟩),
  ("Belmont Park", ⟨40.7155, -73.7201, "USA", "America/New_York"⟩),
  ("Saratoga", ⟨43.0687, -73.7896, "USA", "America/New_York"⟩),
  ("Pimlico", ⟨39.3419, -76.6653, "USA", "America/New_York"⟩)]

/-! ## `weather.py`: feature derivation at the reference index

These mirror the body of `get_comprehensive_weather` after
`idx = times.index(race_time_str)` has located the reference hour.
`precip` stands for `hourly['precipitation']`, `soil` for
`hourly['soil_moisture_0_to_1cm']`.  A Python slice `l[a:b]` is
`(l.take b).drop a`; `max(0, idx-N)` is `ℕ`-truncated subtraction. -/

/-- `hourly['precipitation'][idx]`, the `precipitation_current` field of the
result dict (line 207 of `weather.py`). -/
def precipitation_current (precip : List ℚ) (idx : ℕ) : ℚ :=
  precip.getD idx 0

/-- `rainfall_1h = hourly['precipitation'][idx] if idx > 0 else 0`
(line 155 of `weather.py`). -/
def rainfall_1h (precip : List ℚ) (idx : ℕ) : ℚ :=
  if 0 < idx then precip.getD idx 0 else 0

/-- `rainfall_3h = sum(hourly['precipitation'][max(0,idx-3):idx]) if idx >= 3 else 0`
(line 156 of `weather.py`). -/
def rainfall_3h (precip : List ℚ) (idx : ℕ) : ℚ :=
  if 3 ≤ idx then ((precip.take idx).drop (idx - 3)).sum else 0

/-- `rainfall_6h = sum(hourly['precipitation'][max(0,idx-6):idx]) if idx >= 6 else 0`
(line 157 of `weather.py`). -/
def rainfall_6h (precip : List ℚ) (idx : ℕ) : ℚ :=
  if 6 ≤ idx then ((precip.take idx).drop (idx - 6)).sum else 0

/-- `rainfall_24h = sum(hourly['precipitation'][max(0,idx-24):idx]) if idx >= 24 else 0`
(line 158 of `weather.py`). -/
def rainfall_24h (precip : List ℚ) (idx : ℕ) : ℚ :=
  if 24 ≤ idx then ((precip.take idx).drop (idx - 24)).sum else 0

/-- `rainfall_7d = sum(hourly['precipitation'][:idx]) if idx > 0 else 0`
(line 159 of `weather.py`). -/
def rainfall_7d (precip : List ℚ) (idx : ℕ) : ℚ :=
  if 0 < idx then (precip.take idx).sum else 0

/-- The backward scan of lines 162–166 of `weather.py`:
`for i in range(idx-1, -1, -1): if precip[i] > 0.1: break; hours_since_rain += 1`.
The loop visits `idx-1, idx-2, …, 0`; the recursion peels the *last* scanned
index first: scanning down from `i` after having started at `idx-1` counts
`precip[i] > 0.1 ? 0 : 1 + (scan from i-1)`. -/
def hours_since_rain (precip : List ℚ) : ℕ → ℕ
  | 0 => 0
  | i + 1 => if 0.1 < precip.getD i 0 then 0 else hours_since_rain precip i + 1

/-- The going classification of lines 181–188 of `weather.py`, a function of
`soil_moisture_surface = hourly['soil_moisture_0_to_1cm'][idx]`. -/
def predicted_going (soil_moisture_surface : ℚ) : String :=
  if soil_moisture_surface < 0.15 then "Firm"
  else if soil_moisture_surface < 0.25 then "Good"
  else if soil_moisture_surface < 0.35 then "Soft"
  else "Heavy"

/-- `track_drying` of lines 191–196 of `weather.py`: only when `idx >= 3`,
current surface moisture strictly below its value three hours earlier. -/
def track_drying (soil : List ℚ) (idx : ℕ) : Bool :=
  if 3 ≤ idx then decide (soil.getD idx 0 < soil.getD (idx - 3) 0) else false

/-- `track_wetting` of lines 191–197 of `weather.py`: only when `idx >= 3`,
current surface moisture strictly above its value three hours earlier. -/
def track_wetting (soil : List ℚ) (idx : ℕ) : Bool :=
  if 3 ≤ idx then decide (soil.getD (idx - 3) 0 < soil.getD idx 0) else false

/-! ## `collect_daily_weather.py`: the periodic-snapshot store

One row of the `venue_daily_weather` table (schema of `ensure_database`,
lines 40–98).  SQLite `REAL` columns are `Option ℚ` (nullable), `INTEGER`
columns `Option ℤ`, `TEXT` columns `Option String`; `NOT NULL` columns drop
the `Option`.  `track_drying` / `track_wetting` are stored as the Python
booleans bound at lines 211–212, so they are `Option Bool` here.  The
`id INTEGER PRIMARY KEY AUTOINCREMENT` column is not modelled: the insert
never supplies it, so it never conflicts; the list order plays its role. -/
structure DailyWeatherRow where
  venue : String
  country : String
  collection_date : String
  collection_hour : ℤ
  collection_timestamp : String
  temperature : Option ℚ
  apparent_temperature : Option ℚ
  precipitation_current_col : Option ℚ
  rain_current : Option ℚ
  wind_speed : Option ℚ
  wind_direction : Option ℚ
  wind_gusts : Option ℚ
  humidity : Option ℚ
  dew_point : Option ℚ
  pressure : Option ℚ
  cloud_cover : Option ℚ
  visibility : Option ℚ
  weather_code : Option ℤ
  precipitation_probability : Option ℚ
  soil_moisture_0_1cm : Option ℚ
  soil_moisture_1_3cm : Option ℚ
  soil_moisture_3_9cm : Option ℚ
  soil_temperature_0cm : Option ℚ
  soil_temperature_6cm : Option ℚ
  evapotranspiration : Option ℚ
  rainfall_1h_col : Option ℚ
  rainfall_3h_col : Option ℚ
  rainfall_6h_col : Option ℚ
  rainfall_24h_col : Option ℚ
  rainfall_7d_col : Option ℚ
  ground_saturation_index : Option ℚ
  net_moisture_24h : Option ℚ
  hours_since_rain_col : Option ℤ
  predicted_going_col : Option String
  track_drying_col : Option Bool
  track_wetting_col : Option Bool
  weather_data_quality : Option String
  weather_fetched_at : String
  temperature_unit : Option String
  wind_speed_unit : Option String
  deriving DecidableEq

/-- The natural key of the periodic table, its
`UNIQUE(venue, collection_date, collection_hour)` constraint (line 96 of
`collect_daily_weather.py`). -/
def dailyKey (r : DailyWeatherRow) : String × String × ℤ :=
  (r.venue, r.collection_date, r.collection_hour)

/-- `INSERT OR REPLACE INTO venue_daily_weather ...` of `save_to_database`
(lines 171–215 of `collect_daily_weather.py`): on a conflict with the unique
key, SQLite deletes every conflicting row and inserts the new row (with a
fresh autoincrement rowid, hence at the end). -/
def insertOrReplaceDaily (db : List DailyWeatherRow) (r : DailyWeatherRow) :
    List DailyWeatherRow :=
  db.filter (fun x => ! decide (dailyKey x = dailyKey r)) ++ [r]

/-! ## `weather_collector.py`: the race-linked store -/

/-- One row of the `weather_updates` table (schema of `ensure_database`,
lines 38–92 of `weather_collector.py`).  Same column conventions as
`DailyWeatherRow`; the key columns here are `market_id` and
`collection_timestamp` (the latter `NOT NULL`, set to the run's wall-clock
instant at line 185). -/
structure WeatherUpdateRow where
  market_id : String
  venue : String
  race_date : String
  race_time : String
  temperature : Option ℚ
  apparent_temperature : Option ℚ
  precipitation_current_col : Option ℚ
  rain_current : Option ℚ
  wind_speed : Option ℚ
  wind_direction : Option ℚ
  wind_gusts : Option ℚ
  humidity : Option ℚ
  dew_point : Option ℚ
  pressure : Option ℚ
  cloud_cover : Option ℚ
  visibility : Option ℚ
  weather_code : Option ℤ
  precipitation_probability : Option ℚ
  soil_moisture_0_1cm : Option ℚ
  soil_moisture_1_3cm : Option ℚ
  soil_moisture_3_9cm : Option ℚ
  soil_temperature_0cm : Option ℚ
  soil_temperature_6cm : Option ℚ
  evapotranspiration : Option ℚ
  rainfall_1h_col : Option ℚ
  rainfall_3h_col : Option ℚ
  rainfall_6h_col : Option ℚ
  rainfall_24h_col : Option ℚ
  rainfall_7d_col : Option ℚ
  ground_saturation_index : Option ℚ
  net_moisture_24h : Option ℚ
  hours_since_rain_col : Option ℤ
  predicted_going_col : Option String
  track_drying_col : Option Bool
  track_wetting_col : Option Bool
  weather_data_quality : Option String
  weather_fetched_at : String
  temperature_unit : Option String
  wind_speed_unit : Option String
  collection_timestamp : String
  deriving DecidableEq

/-- The pair the spec calls the natural key of the race-linked table,
`(market_id, collection_timestamp)`; in the schema it only backs the
*non-unique* index `idx_weather_market_time` (lines 94–97 of
`weather_collector.py`). -/
def wuKey (r : WeatherUpdateRow) : String × String :=
  (r.market_id, r.collection_timestamp)

/-- The plain `INSERT INTO weather_updates ...` of `save_weather_update`
(lines 191–237 of `weather_collector.py`): an unconditional append — no
`OR REPLACE`, and no unique constraint to conflict with. -/
def insertWeatherUpdate (db : List WeatherUpdateRow) (r : WeatherUpdateRow) :
    List WeatherUpdateRow :=
  db ++ [r]

/-! ## Orchestration loops

The weather payload returned by `get_comprehensive_weather` and the database
write are external effects; both loops are parametrised by oracles
`fetchW` (the provider: `none` models a fetch failure, a missing reference
hour, or any exception caught inside the fetch) and `save` (the store:
`false` models a database error, after which the write is rolled back). -/

/-- A race-schedule entry (`race_schedule.json` record / demo schedule shape,
lines 121–134 and 139–144 of `weather_collector.py`). -/
structure Race where
  market_id : String
  venue : String
  race_date : String
  race_time : String
  deriving DecidableEq

/-- The dict built at lines 166–172 of `weather_collector.py` and handed to
`save_weather_update`. -/
structure RaceData (W : Type) where
  market_id : String
  venue : String
  race_date : String
  race_time : String
  weather : W

/-- `collect_weather_for_race` (lines 139–172 of `weather_collector.py`):
skip with `None` when the venue is not a key of `VENUE_COORDS`; then fetch,
and propagate a failed fetch as `None`. -/
def collectWeatherForRace {W : Type} (fetchW : Race → Option W) (race : Race) :
    Option (RaceData W) :=
  if ((VENUE_COORDS.map Prod.fst).contains race.venue) = false then none
  else
    match fetchW race with
    | none => none
    | some w => some ⟨race.market_id, race.venue, race.race_date, race.race_time, w⟩

/-- The per-entry test of the loop body at line 291 of `weather_collector.py`:
`race_data and self.save_weather_update(race_data)` — the save is attempted
only when collection produced data. -/
def processRace {W : Type} (fetchW : Race → Option W) (save : RaceData W → Bool)
    (race : Race) : Bool :=
  match collectWeatherForRace fetchW race with
  | none => false
  | some rd => save rd

/-- The tallying loop of `run_collection` (lines 283–294 of
`weather_collector.py`) over the already-filtered `upcoming_races`: each
entry increments exactly one of `(success_count, fail_count)`. -/
def runCollection {W : Type} (fetchW : Race → Option W) (save : RaceData W → Bool)
    (races : List Race) : ℕ × ℕ :=
  races.foldl
    (fun c race => if processRace fetchW save race then (c.1 + 1, c.2) else (c.1, c.2 + 1))
    (0, 0)

/-- The dict built at lines 142–146 of `collect_daily_weather.py` by
`collect_venue_weather`. -/
structure VenueData (W : Type) where
  venue : String
  country : String
  weather : W

/-- `collect_venue_weather` (lines 120–150 of `collect_daily_weather.py`):
fetch for the venue at the current hour; `None` on a missing payload or any
exception. -/
def collectVenueWeather {W : Type} (fetchW : String → Option W)
    (venue : String) (info : VenueInfo) : Option (VenueData W) :=
  match fetchW venue with
  | none => none
  | some w => some ⟨venue, info.country, w⟩

/-- The per-entry test of the loop body at line 253 of
`collect_daily_weather.py`: `venue_data and self.save_to_database(venue_data)`. -/
def processVenue {W : Type} (fetchW : String → Option W) (save : VenueData W → Bool)
    (entry : String × VenueInfo) : Bool :=
  match collectVenueWeather fetchW entry.1 entry.2 with
  | none => false
  | some vd => save vd

/-- The tallying loop of `run_collection` (lines 247–256 of
`collect_daily_weather.py`) over `venues_to_collect.items()`. -/
def runDailyCollection {W : Type} (fetchW : String → Option W)
    (save : VenueData W → Bool) (venues : List (String × VenueInfo)) : ℕ × ℕ :=
  venues.foldl
    (fun c entry => if processVenue fetchW save entry then (c.1 + 1, c.2) else (c.1, c.2 + 1))
    (0, 0)

/-! ## Concrete sample rows (used by witnesses and counterexamples) -/

/-- A sample periodic-snapshot row: a Newbury observation in the 14:00 bucket. -/
def dailyRowA : DailyWeatherRow :=
  ⟨"Newbury", "UK", "2025-10-01", 14, "2025-10-01T14:05:00",
   some 12, none, none, none, none, none, none, none, none, none, none, none,
   none, none,
   none, none, none, none, none, none,
   none, none, none, none, none,
   none, none, none, some "Good", some false, some false,
   some "comprehensive", "2025-10-01T14:05:00", some "°C", some "m/s"⟩

/-- A second periodic-snapshot row with the same key
`("Newbury", "2025-10-01", 14)` as `dailyRowA` but a different payload in
every nullable column that `dailyRowA` fills. -/
def dailyRowB : DailyWeatherRow :=
  ⟨"Newbury", "UK", "2025-10-01", 14, "2025-10-01T14:55:00",
   some 13, none, none, none, none, none, none, none, none, none, none, none,
   none, none,
   none, none, none, none, none, none,
   none, none, none, none, none,
   none, none, none, some "Soft", some true, some false,
   some "comprehensive", "2025-10-01T14:55:00", some "°C", some "m/s"⟩

/-- A sample race-linked row. -/
def wuRowA : WeatherUpdateRow :=
  ⟨"1.234", "Newbury", "2025-10-01", "14:30",
   some 12, none, none, none, none, none, none, none, none, none, none, none,
   none, none,
   none, none, none, none, none, none,
   none, none, none, none, none,
   none, none, none, some "Good", some false, some false,
   some "comprehensive", "2025-10-01T10:00:00", some "°C", some "m/s",
   "2025-10-01T10:00:00"⟩

/-- A second race-linked row sharing `wuRowA`'s
`(market_id, collection_timestamp)` pair but carrying a different payload. -/
def wuRowB : WeatherUpdateRow :=
  ⟨"1.234", "Newbury", "2025-10-01", "14:30",
   some 13, none, none, none, none, none, none, none, none, none, none, none,
   none, none,
   none, none, none, none, none, none,
   none, none, none, none, none,
   none, none, none, some "Soft", some true, some false,
   some "comprehensive", "2025-10-01T10:00:00", some "°C", some "m/s",
   "2025-10-01T10:00:00"⟩

/-! ## Helper lemmas -/

/-- A Python slice sum `sum(l[a:b])` (with `b` in range) is the sum of the
entries over the half-open index window `[a, b)`. -/
lemma slice_sum (l : List ℚ) : ∀ (b a : ℕ), a ≤ b → b ≤ l.length →
    ((l.take b).drop a).sum = ∑ i in Finset.Ico a b, l.getD i 0 := by
  intro b
  induction b with
  | zero =>
    intro a ha _
    interval_cases a
    simp
  | succ n ih =>
    intro a ha hb
    rcases Nat.lt_or_ge a (n + 1) with h | h
    · have han : a ≤ n := Nat.lt_succ_iff.mp h
      have hn : n < l.length := hb
      rw [List.take_succ]
      have hget : l[n]? = some (l.getD n 0) := by
        rw [List.getD_eq_getElem _ _ hn, List.getElem?_eq_getElem hn]
      rw [hget]
      rw [List.drop_append_of_le_length (by simp; omega)]
      rw [List.sum_append]
      rw [ih a han (le_of_lt hn)]
      rw [Finset.sum_Ico_succ_top han]
      simp
    · have haeq : a = n + 1 := le_antisymm ha h
      subst haeq
      have hlen : (l.take (n + 1)).length ≤ n + 1 := by simp
      simp [List.drop_eq_nil_of_le hlen]

/-- Both collection loops are folds of the same shape; starting the tally at
`(a, b)`, they end at `(a + #successes, b + #failures)`. -/
lemma foldl_tally {α : Type} (p : α → Bool) :
    ∀ (l : List α) (a b : ℕ),
      l.foldl (fun c x => if p x then (c.1 + 1, c.2) else (c.1, c.2 + 1)) (a, b)
        = (a + l.countP p, b + l.countP (fun x => ! p x)) := by
  intro l
  induction l with
  | nil => intro a b; simp
  | cons x xs ih =>
    intro a b
    by_cases h : p x = true
    · rw [List.foldl_cons]
      simp only [h, if_pos]
      rw [ih (a + 1) b]
      simp [List.countP_cons, h, Prod.mk.injEq]
      omega
    · rw [List.foldl_cons]
      simp only [h, if_neg, Bool.false_eq_true, not_false_iff, ite_false]
      rw [ih a (b + 1)]
      simp [List.countP_cons, h, Prod.mk.injEq]
      omega

/-- The scheduled-mode tally is the pair of counts of succeeding and of
failing entries. -/
lemma runCollection_eq_counts {W : Type} (fetchW : Race → Option W)
    (save : RaceData W → Bool) (races : List Race) :
    runCollection fetchW save races
      = (races.countP (processRace fetchW save),
         races.countP (fun r => ! processRace fetchW save r)) := by
  simpa using foldl_tally (processRace fetchW save) races 0 0

/-- The periodic-mode tally is the pair of counts of succeeding and of
failing entries. -/
lemma runDailyCollection_eq_counts {W : Type} (fetchW : String → Option W)
    (save : VenueData W → Bool) (venues : List (String × VenueInfo)) :
    runDailyCollection fetchW save venues
      = (venues.countP (processVenue fetchW save),
         venues.countP (fun v => ! processVenue fetchW save v)) := by
  simpa using foldl_tally (processVenue fetchW save) venues 0 0

/-- One upsert into the periodic table leaves exactly the new row under its
key: the filter of the table by that key is the one-element list `[r]`. -/
lemma filter_insertOrReplaceDaily (db : List DailyWeatherRow) (r : DailyWeatherRow) :
    (insertOrReplaceDaily db r).filter (fun x => decide (dailyKey x = dailyKey r)) = [r] := by
  unfold insertOrReplaceDaily
  rw [List.filter_append, List.filter_filter]
  simp

/-! ## Claim theorems -/

/-- Claim C1: in the periodic-snapshot store, a write whose
`(venue, collection_date, collection_hour)` key already exists leaves exactly
one stored row for that key, every column of which equals the most recently
written payload (full replace, never a merge); in particular writing the same
key twice with different payloads ends with one row equal to the second
payload.  Stated as: after any upsert the table filtered by the written key is
exactly `[r]`, the whole written row; and after two upserts with equal keys the
table filtered by that key is exactly `[r2]`. -/
theorem C1_daily_upsert_replaces (db : List DailyWeatherRow)
    (r1 r2 : DailyWeatherRow) (hkey : dailyKey r1 = dailyKey r2) :
    ((insertOrReplaceDaily db r2).filter
        (fun x => decide (dailyKey x = dailyKey r2)) = [r2]) ∧
    ((insertOrReplaceDaily (insertOrReplaceDaily db r1) r2).filter
        (fun x => decide (dailyKey x = dailyKey r1)) = [r2]) := by
  refine ⟨filter_insertOrReplaceDaily db r2, ?_⟩
  rw [hkey]
  exact filter_insertOrReplaceDaily (insertOrReplaceDaily db r1) r2

/-- Witness for C1 at the concrete rows `dailyRowA`, `dailyRowB` (same key,
different payloads) on the empty table. -/
theorem C1_daily_upsert_replaces_witness :
    dailyKey dailyRowA = dailyKey dailyRowB ∧
    ((insertOrReplaceDaily (insertOrReplaceDaily [] dailyRowA) dailyRowB).filter
        (fun x => decide (dailyKey x = dailyKey dailyRowA)) = [dailyRowB]) :=
  ⟨rfl, (C1_daily_upsert_replaces [] dailyRowA dailyRowB rfl).2⟩

/-- Counterexample to claim C2: the race-linked store does *not* key rows
uniquely by `(market_id, collection_timestamp)`.  Writing `wuRowB`, whose key
equals `wuRowA`'s, into a table already holding `wuRowA` yields two rows with
that key (the keys of the table are not pairwise distinct), instead of
replacing the existing row. -/
theorem C2_counterexample :
    wuKey wuRowA = wuKey wuRowB ∧
    ¬ ((insertWeatherUpdate (insertWeatherUpdate [] wuRowA) wuRowB).map wuKey).Nodup ∧
    (insertWeatherUpdate (insertWeatherUpdate [] wuRowA) wuRowB).length = 2 := by
  refine ⟨rfl, ?_, rfl⟩
  simp [insertWeatherUpdate, wuKey, wuRowA, wuRowB]

/-- Claim C2 as amended: in the race-linked store every write is a plain
append — the table length grows by one, the previously stored rows are left
exactly in place, and the number of rows carrying the written row's
`(market_id, collection_timestamp)` pair always grows by one, so a write whose
key already exists adds a second row with that key rather than replacing the
first; the race-linked schema does not share the periodic schema's upsert
discipline. -/
theorem C2_insert_appends (db : List WeatherUpdateRow) (r : WeatherUpdateRow) :
    (insertWeatherUpdate db r).length = db.length + 1 ∧
    (insertWeatherUpdate db r).take db.length = db ∧
    (insertWeatherUpdate db r).countP (fun x => decide (wuKey x = wuKey r))
      = db.countP (fun x => decide (wuKey x = wuKey r)) + 1 := by
  refine ⟨by simp [insertWeatherUpdate], ?_, ?_⟩
  · rw [insertWeatherUpdate, List.take_left]
  · simp [insertWeatherUpdate, List.countP_append]

/-- Claim C9: in scheduled mode, a schedule entry whose venue is absent from
`VENUE_COORDS` is skipped (its collection returns no data and its save is
never reached, so the entry counts as a failure) and the batch goes on: the
run over any schedule containing that entry ends with the same success count
as the run without it and a failure count exactly one larger.  Exceptions
cannot escape the loop in the model because every outcome of an entry is one
of the two tally updates. -/
theorem C9_unknown_venue_skipped {W : Type} (fetchW : Race → Option W)
    (save : RaceData W → Bool) (race : Race) (pre post : List Race)
    (h : ((VENUE_COORDS.map Prod.fst).contains race.venue) = false) :
    processRace fetchW save race = false ∧
    runCollection fetchW save (pre ++ race :: post)
      = ((runCollection fetchW save (pre ++ post)).1,
         (runCollection fetchW save (pre ++ post)).2 + 1) := by
  have hp : processRace fetchW save race = false := by
    unfold processRace collectWeatherForRace
    rw [if_pos h]
  refine ⟨hp, ?_⟩
  rw [runCollection_eq_counts, runCollection_eq_counts]
  simp [List.countP_append, List.countP_cons, hp, Prod.mk.injEq]
  omega

/-- Witness for C9: the venue `"Longchamp"` is not in the catalog; a
one-entry schedule naming it produces tally `(0, 1)` relative to the empty
schedule. -/
theorem C9_unknown_venue_skipped_witness :
    (((VENUE_COORDS.map Prod.fst).contains "Longchamp") = false) ∧
    (processRace (fun _ => (none : Option Unit)) (fun _ => true)
        ⟨"1.234", "Longchamp", "2025-10-01", "14:30"⟩ = false ∧
      runCollection (fun _ => (none : Option Unit)) (fun _ => true)
          ([] ++ (⟨"1.234", "Longchamp", "2025-10-01", "14:30"⟩ : Race) :: [])
        = ((runCollection (fun _ => (none : Option Unit)) (fun _ => true) ([] ++ [])).1,
           (runCollection (fun _ => (none : Option Unit)) (fun _ => true) ([] ++ [])).2 + 1)) :=
  ⟨by decide,
   C9_unknown_venue_skipped (fun _ => (none : Option Unit)) (fun _ => true)
     ⟨"1.234", "Longchamp", "2025-10-01", "14:30"⟩ [] [] (by decide)⟩

/-- Claim C10: in both collection modes every processed entry increments
exactly one of the two tally counters, so at the end of any run
`success_count + fail_count` equals the number of entries processed, for every
schedule, venue set, provider behaviour and store behaviour. -/
theorem C10_tally_partition :
    (∀ (W : Type) (fetchW : Race → Option W) (save : RaceData W → Bool)
        (races : List Race),
      (runCollection fetchW save races).1 + (runCollection fetchW save races).2
        = races.length) ∧
    (∀ (W : Type) (fetchW : String → Option W) (save : VenueData W → Bool)
        (venues : List (String × VenueInfo)),
      (runDailyCollection fetchW save venues).1
          + (runDailyCollection fetchW save venues).2 = venues.length) := by
  constructor
  · intro W fetchW save races
    rw [runCollection_eq_counts]
    simpa using (races.length_eq_countP_add_countP (processRace fetchW save)).symm
  · intro W fetchW save venues
    rw [runDailyCollection_eq_counts]
    simpa using (venues.length_eq_countP_add_countP (processVenue fetchW save)).symm

/-- Claim C3: for each N ∈ {3, 6, 24}, `rainfall_Nh` is the sum of the
precipitation entries over the half-open index window `[idx − N, idx)` when
`idx ≥ N`, and `0` when `idx < N` (never a partial-window sum); and on the
series `[0, 0, 2, 0, 0]` with reference index 4, `rainfall_3h = 2`. -/
theorem C3_rainfall_window_sums (precip : List ℚ) (idx : ℕ)
    (hlen : idx ≤ precip.length) :
    (3 ≤ idx → rainfall_3h precip idx
        = ∑ i in Finset.Ico (idx - 3) idx, precip.getD i 0) ∧
    (idx < 3 → rainfall_3h precip idx = 0) ∧
    (6 ≤ idx → rainfall_6h precip idx
        = ∑ i in Finset.Ico (idx - 6) idx, precip.getD i 0) ∧
    (idx < 6 → rainfall_6h precip idx = 0) ∧
    (24 ≤ idx → rainfall_24h precip idx
        = ∑ i in Finset.Ico (idx - 24) idx, precip.getD i 0) ∧
    (idx < 24 → rainfall_24h precip idx = 0) ∧
    rainfall_3h [0, 0, 2, 0, 0] 4 = 2 := by
  refine ⟨?_, ?_, ?_, ?_, ?_, ?_, by norm_num [rainfall_3h, List.take, List.drop]⟩
  · intro h
    rw [rainfall_3h, if_pos h]
    exact slice_sum precip idx (idx - 3) (Nat.sub_le idx 3) hlen
  · intro h
    rw [rainfall_3h, if_neg (by omega)]
  · intro h
    rw [rainfall_6h, if_pos h]
    exact slice_sum precip idx (idx - 6) (Nat.sub_le idx 6) hlen
  · intro h
    rw [rainfall_6h, if_neg (by omega)]
  · intro h
    rw [rainfall_24h, if_pos h]
    exact slice_sum precip idx (idx - 24) (Nat.sub_le idx 24) hlen
  · intro h
    rw [rainfall_24h, if_neg (by omega)]

/-- Witness for C3 on the spec's own example series. -/
theorem C3_rainfall_window_sums_witness :
    (4 : ℕ) ≤ ([0, 0, 2, 0, 0] : List ℚ).length ∧ (3 : ℕ) ≤ 4 ∧
    rainfall_3h [0, 0, 2, 0, 0] 4
      = ∑ i in Finset.Ico (4 - 3) 4, ([0, 0, 2, 0, 0] : List ℚ).getD i 0 :=
  ⟨by norm_num, by norm_num,
   (C3_rainfall_window_sums [0, 0, 2, 0, 0] 4 (by norm_num)).1 (by norm_num)⟩

/-- Counterexample to claim C4: the claim's "if and only if" fails.  On the
all-zero series `[0, 0, 0, 0]` with reference index 3 the window is *not*
clipped (`3 ≥ 3`), yet `rainfall_3h = 0`: the result being zero does not
imply that the reference index is below the window size. -/
theorem C4_counterexample :
    rainfall_3h [0, 0, 0, 0] 3 = 0 ∧ ¬ (3 < 3) := by
  constructor
  · norm_num [rainfall_3h, List.take, List.drop]
  · omega

/-- Claim C4 as amended: only the forward direction of the clipped-window
policy holds — for each window (1h, 3h, 6h, 24h, 7d) the result is 0 whenever
the reference index is below the window size (below 1 for the 1h reading and
the 7d history sum); a result of 0 with an unclipped window is also possible,
e.g. when every in-window value is 0. -/
theorem C4_clipped_window_zero (precip : List ℚ) (idx : ℕ) :
    (idx < 1 → rainfall_1h precip idx = 0) ∧
    (idx < 3 → rainfall_3h precip idx = 0) ∧
    (idx < 6 → rainfall_6h precip idx = 0) ∧
    (idx < 24 → rainfall_24h precip idx = 0) ∧
    (idx < 1 → rainfall_7d precip idx = 0) := by
  refine ⟨?_, ?_, ?_, ?_, ?_⟩ <;> intro h
  · rw [rainfall_1h, if_neg (by omega)]
  · rw [rainfall_3h, if_neg (by omega)]
  · rw [rainfall_6h, if_neg (by omega)]
  · rw [rainfall_24h, if_neg (by omega)]
  · rw [rainfall_7d, if_neg (by omega)]

/-- Witness for the amended C4 at index 0, where every window is clipped. -/
theorem C4_clipped_window_zero_witness :
    (0 : ℕ) < 3 ∧ rainfall_3h [1, 2, 3] 0 = 0 :=
  ⟨by norm_num, (C4_clipped_window_zero [1, 2, 3] 0).2.1 (by norm_num)⟩

/-- Claim C5: `hours_since_rain` counts the consecutive hours immediately
before the reference index, scanned backward, whose precipitation is ≤ 0.1:
it is at most `idx` (hence in `[0, idx]`), every scanned hour is dry
(≤ 0.1), the scan stops exactly at the first wet hour (> 0.1) when one
exists, and it equals `idx` iff no hour before `idx` is wet. -/
theorem C5_hours_since_rain_spec (precip : List ℚ) (idx : ℕ) :
    hours_since_rain precip idx ≤ idx ∧
    (∀ j, idx - hours_since_rain precip idx ≤ j → j < idx → precip.getD j 0 ≤ 0.1) ∧
    (hours_since_rain precip idx < idx →
       0.1 < precip.getD (idx - hours_since_rain precip idx - 1) 0) ∧
    (hours_since_rain precip idx = idx ↔ ∀ j, j < idx → precip.getD j 0 ≤ 0.1) := by
  induction idx with
  | zero =>
    refine ⟨le_refl 0, ?_, ?_, ?_⟩
    · intro j _ hj
      omega
    · intro hlt
      omega
    · constructor
      · intro _ j hj
        omega
      · intro _
        rfl
  | succ i ih =>
    obtain ⟨ih1, ih2, ih3, ih4⟩ := ih
    by_cases hc : 0.1 < precip.getD i 0
    · have he : hours_since_rain precip (i + 1) = 0 := by
        unfold hours_since_rain
        rw [if_pos hc]
      rw [he]
      refine ⟨by omega, ?_, ?_, ?_⟩
      · intro j hj1 hj2
        omega
      · intro _
        have harith : i + 1 - 0 - 1 = i := by omega
        rw [harith]
        exact hc
      · constructor
        · intro h0
          omega
        · intro hall
          exact absurd (hall i (by omega)) (not_le.mpr hc)
    · push_neg at hc
      have he : hours_since_rain precip (i + 1) = hours_since_rain precip i + 1 := by
        simp only [hours_since_rain]
        rw [if_neg (not_lt.mpr hc)]
      rw [he]
      refine ⟨by omega, ?_, ?_, ?_⟩
      · intro j hj1 hj2
        rcases Nat.lt_or_ge j i with hji | hji
        · exact ih2 j (by omega) hji
        · have hji2 : j = i := by omega
          subst hji2
          exact hc
      · intro hlt
        have hlt2 : hours_since_rain precip i < i := by omega
        have harith : i + 1 - (hours_since_rain precip i + 1) - 1
            = i - hours_since_rain precip i - 1 := by omega
        rw [harith]
        exact ih3 hlt2
      · constructor
        · intro heq j hj
          have heq2 : hours_since_rain precip i = i := by omega
          rcases Nat.lt_or_ge j i with hji | hji
          · exact (ih4.mp heq2) j hji
          · have hji2 : j = i := by omega
            subst hji2
            exact hc
        · intro hall
          have hfull : hours_since_rain precip i = i :=
            ih4.mpr (fun j hj => hall j (by omega))
          omega

/-- Witness for C5 on the series `[0, 0.5, 0, 0]` at reference index 4, where
the scan counts two dry hours and stops at the wet hour `0.5`. -/
theorem C5_hours_since_rain_spec_witness :
    hours_since_rain [0, 0.5, 0, 0] 4 ≤ 4 ∧
    hours_since_rain [0, 0.5, 0, 0] 4 < 4 ∧
    0.1 < ([0, 0.5, 0, 0] : List ℚ).getD (4 - hours_since_rain [0, 0.5, 0, 0] 4 - 1) 0 :=
  ⟨(C5_hours_since_rain_spec [0, 0.5, 0, 0] 4).1,
   by norm_num [hours_since_rain],
   (C5_hours_since_rain_spec [0, 0.5, 0, 0] 4).2.2.1 (by norm_num [hours_since_rain])⟩

/-- Claim C6: `predicted_going` is a total function of the 0–1cm surface
soil-moisture value whose four labels partition the rationals into disjoint,
gapless, order-preserving ranges: the label is `"Firm"` exactly on
`v < 0.15`, `"Good"` exactly on `0.15 ≤ v < 0.25`, `"Soft"` exactly on
`0.25 ≤ v < 0.35`, `"Heavy"` exactly on `0.35 ≤ v`; and a surface moisture of
`0.20` yields `"Good"`. -/
theorem C6_predicted_going_ranges (v : ℚ) :
    (predicted_going v = "Firm" ↔ v < 0.15) ∧
    (predicted_going v = "Good" ↔ 0.15 ≤ v ∧ v < 0.25) ∧
    (predicted_going v = "Soft" ↔ 0.25 ≤ v ∧ v < 0.35) ∧
    (predicted_going v = "Heavy" ↔ 0.35 ≤ v) ∧
    predicted_going 0.20 = "Good" := by
  have e : predicted_going 0.20 = "Good" := by norm_num [predicted_going]
  have hmain : (predicted_going v = "Firm" ↔ v < 0.15) ∧
      (predicted_going v = "Good" ↔ 0.15 ≤ v ∧ v < 0.25) ∧
      (predicted_going v = "Soft" ↔ 0.25 ≤ v ∧ v < 0.35) ∧
      (predicted_going v = "Heavy" ↔ 0.35 ≤ v) := by
    unfold predicted_going
    split_ifs with h1 h2 h3
    · exact ⟨iff_of_true rfl h1,
        iff_of_false (by decide) (fun hx => by linarith [hx.1]),
        iff_of_false (by decide) (fun hx => by linarith [hx.1]),
        iff_of_false (by decide) (fun hx => by linarith)⟩
    · exact ⟨iff_of_false (by decide) h1,
        iff_of_true rfl ⟨not_lt.mp h1, h2⟩,
        iff_of_false (by decide) (fun hx => by linarith [hx.1]),
        iff_of_false (by decide) (fun hx => by linarith)⟩
    · exact ⟨iff_of_false (by decide) h1,
        iff_of_false (by decide) (fun hx => h2 hx.2),
        iff_of_true rfl ⟨not_lt.mp h2, h3⟩,
        iff_of_false (by decide) (fun hx => by linarith)⟩
    · exact ⟨iff_of_false (by decide) h1,
        iff_of_false (by decide) (fun hx => h2 hx.2),
        iff_of_false (by decide) (fun hx => h3 hx.2),
        iff_of_true rfl (not_lt.mp h3)⟩
  exact ⟨hmain.1, hmain.2.1, hmain.2.2.1, hmain.2.2.2, e⟩

/-- Claim C7: the two trend flags are never both true; for `idx ≥ 3` the
drying flag holds iff surface moisture at `idx` is strictly below its value
at `idx − 3` and the wetting flag iff it is strictly above; for `idx < 3`,
and on a tie, both flags are false. -/
theorem C7_track_trend_flags (soil : List ℚ) (idx : ℕ) :
    ¬ (track_drying soil idx = true ∧ track_wetting soil idx = true) ∧
    (3 ≤ idx →
      (track_drying soil idx = true ↔ soil.getD idx 0 < soil.getD (idx - 3) 0)) ∧
    (3 ≤ idx →
      (track_wetting soil idx = true ↔ soil.getD (idx - 3) 0 < soil.getD idx 0)) ∧
    (idx < 3 → track_drying soil idx = false ∧ track_wetting soil idx = false) ∧
    (soil.getD idx 0 = soil.getD (idx - 3) 0 →
      track_drying soil idx = false ∧ track_wetting soil idx = false) := by
  by_cases h : 3 ≤ idx
  · simp only [track_drying, track_wetting, if_pos h]
    refine ⟨?_, fun _ => by simp, fun _ => by simp, fun hlt => absurd h (by omega), ?_⟩
    · rintro ⟨h1, h2⟩
      simp only [decide_eq_true_eq] at h1 h2
      exact absurd h2 (not_lt.mpr (le_of_lt h1))
    · intro heq
      refine ⟨?_, ?_⟩ <;> simp only [decide_eq_false_iff_not, not_lt]
      · exact le_of_eq heq.symm
      · exact le_of_eq heq
  · simp only [track_drying, track_wetting, if_neg h]
    exact ⟨by simp, fun h3 => absurd h3 h, fun h3 => absurd h3 h,
      fun _ => by simp, fun _ => by simp⟩

/-- Witness for C7 at a concrete series and index 4 ≥ 3. -/
theorem C7_track_trend_flags_witness :
    (3 : ℕ) ≤ 4 ∧
    (track_drying [0.3, 0, 0, 0, 0.2] 4 = true ↔
      ([0.3, 0, 0, 0, 0.2] : List ℚ).getD 4 0
        < ([0.3, 0, 0, 0, 0.2] : List ℚ).getD (4 - 3) 0) :=
  ⟨by norm_num, (C7_track_trend_flags [0.3, 0, 0, 0, 0.2] 4).2.1 (by norm_num)⟩

/-- Claim C8: `rainfall_1h` is the precipitation value at the reference index
itself when `idx > 0` — identically the `precipitation_current` reading, not
a one-hour difference — and `0` when `idx = 0`. -/
theorem C8_rainfall_1h_is_current_reading (precip : List ℚ) (idx : ℕ) :
    (0 < idx → rainfall_1h precip idx = precip.getD idx 0 ∧
       rainfall_1h precip idx = precipitation_current precip idx) ∧
    (idx = 0 → rainfall_1h precip idx = 0) := by
  constructor
  · intro h
    rw [rainfall_1h, if_pos h]
    exact ⟨rfl, rfl⟩
  · intro h
    rw [rainfall_1h, if_neg (by omega)]

/-- Witness for C8 at the series `[5, 7]` and reference index 1. -/
theorem C8_rainfall_1h_is_current_reading_witness :
    (0 : ℕ) < 1 ∧ (rainfall_1h [5, 7] 1 = ([5, 7] : List ℚ).getD 1 0 ∧
      rainfall_1h [5, 7] 1 = precipitation_current [5, 7] 1) :=
  ⟨by norm_num, (C8_rainfall_1h_is_current_reading [5, 7] 1).1 (by norm_num)⟩
